import Mathlib

/-!
Shallow embedding of the data-preparation pipeline `clean_and_prepare_data`
and of the map-sampling step of `show_advanced_spatial_analysis` from
`advanced_wildfire_analysis.py`, together with proofs about them.

The pipeline works row by row: each pandas column operation in
`clean_and_prepare_data` (numeric coercion, row filtering on `FIREYEAR`,
filling of `STATCAUSE`, the `cause_mapping` lookup, `pd.cut` on
`TOTALACRES`) acts independently on each row, so the whole function is
embedded as a `List.filterMap` of a per-record function.
-/

/-- A raw cell value of the input table: missing (`NaN`/`None`), a string,
or a number. Numbers are modelled as rationals. -/
inductive Val where
  | null : Val
  | str : String → Val
  | num : ℚ → Val
deriving DecidableEq

/-- An input record, restricted to the three columns that
`clean_and_prepare_data` reads: `TOTALACRES`, `STATCAUSE`, `FIREYEAR`.
`STATCAUSE` is a string column, so a cell is either missing or a string. -/
structure RawRecord where
  TOTALACRES : Val
  STATCAUSE : Option String
  FIREYEAR : Val
deriving DecidableEq

/-- Value of a list of decimal digit characters. -/
def digitsToNat (ds : List Char) : ℕ :=
  ds.foldl (fun n c => 10 * n + (c.toNat - 48)) 0

/-- Decimal numeral parsing as `pd.to_numeric(·, errors='coerce')` performs
it on a string cell: an optional sign, an integer part, an optional `.` and
fractional part, at least one digit in total. Strings that are not numerals
coerce to `NaN`, i.e. `none` here. The rational is built with a single
`Rat.divInt`. -/
def parseDecimal (s : String) : Option ℚ :=
  let cs := s.data
  let neg : Bool := match cs with | List.cons c _ => c = '-' | _ => false
  let cs2 : List Char := match cs with
    | '-' :: rest => rest
    | '+' :: rest => rest
    | _ => cs
  let intPart := cs2.takeWhile (·.isDigit)
  let rest := cs2.dropWhile (·.isDigit)
  let mk : ℕ → ℕ → ℚ := fun n k =>
    Rat.divInt (if neg then -(n : ℤ) else (n : ℤ)) ((10 : ℤ) ^ k)
  match rest with
  | [] => if intPart.isEmpty then none else some (mk (digitsToNat intPart) 0)
  | '.' :: frac =>
    if frac.all (·.isDigit) && !(intPart.isEmpty && frac.isEmpty) then
      some (mk (digitsToNat intPart * 10 ^ frac.length + digitsToNat frac) frac.length)
    else none
  | _ => none

/-- `pd.to_numeric(x, errors='coerce')` on a single cell: numbers pass
through, strings are parsed, missing values and parse failures give `NaN`
(`none`). -/
def to_numeric : Val → Option ℚ
  | Val.null => none
  | Val.num q => some q
  | Val.str s => parseDecimal s

/-- The `cause_mapping` dictionary of `clean_and_prepare_data`
(lines 109-122 of `advanced_wildfire_analysis.py`). -/
def cause_mapping : String → Option String
  | "Lightning" => some "Natural"
  | "Equipment Use" => some "Human"
  | "Smoking" => some "Human"
  | "Campfire" => some "Human"
  | "Debris Burning" => some "Human"
  | "Railroad" => some "Human"
  | "Arson" => some "Human"
  | "Children" => some "Human"
  | "Miscellaneous" => some "Other"
  | "Fireworks" => some "Human"
  | "Powerline" => some "Human"
  | "Unknown" => some "Unknown"
  | _ => none

/-- `cause_mapping.get(x, 'Other')`: the lambda applied on line 123. -/
def cause_category (s : String) : String := (cause_mapping s).getD "Other"

/-- `pd.cut(·, bins=[0, 10, 100, 1000, 10000, inf], labels=[...])` on one
value. With pandas' default `right=True` the intervals are `(0, 10]`,
`(10, 100]`, `(100, 1000]`, `(1000, 10000]`, `(10000, ∞)`; a value covered
by no interval (here every `a ≤ 0`) is assigned `NaN` (`none`). -/
def fire_size_category (a : ℚ) : Option String :=
  if a ≤ 0 then none
  else if a ≤ 10 then some "Small (<10)"
  else if a ≤ 100 then some "Medium (10-100)"
  else if a ≤ 1000 then some "Large (100-1000)"
  else if a ≤ 10000 then some "Very Large (1000-10000)"
  else some "Mega (>10000)"

/-- Truncation of a rational toward zero: the semantics of numpy's
float-to-int cast used by `astype(int)` on line 103. -/
def ratTrunc (q : ℚ) : ℤ := q.num.tdiv (q.den : ℤ)

/-- An output record of `clean_and_prepare_data`: `TOTALACRES` is numeric,
`FIREYEAR` an integer, `STATCAUSE` a (non-missing) string, plus the two
derived columns. `FIRE_SIZE_CATEGORY` is `Option` because `pd.cut` leaves
out-of-range values as `NaN`. -/
structure CleanRecord where
  TOTALACRES : ℚ
  FIREYEAR : ℤ
  STATCAUSE : String
  CAUSE_CATEGORY : String
  FIRE_SIZE_CATEGORY : Option String
deriving DecidableEq

/-- Row-wise semantics of `clean_and_prepare_data` (lines 87-133):
coerce `TOTALACRES` with failed coercions becoming `0` (line 97); drop the
row iff `FIREYEAR` fails numeric coercion, else truncate it to an integer
(lines 100-103); fill a missing `STATCAUSE` with `"Unknown"` (line 107);
derive `CAUSE_CATEGORY` (line 123) and `FIRE_SIZE_CATEGORY`
(lines 127-131). -/
def clean_record (r : RawRecord) : Option CleanRecord :=
  let acres : ℚ := (to_numeric r.TOTALACRES).getD 0
  match to_numeric r.FIREYEAR with
  | none => none
  | some y =>
    let cause : String := r.STATCAUSE.getD "Unknown"
    some ⟨acres, ratTrunc y, cause, cause_category cause, fire_size_category acres⟩

/-- `clean_and_prepare_data` on a whole table. -/
def clean_and_prepare_data (rs : List RawRecord) : List CleanRecord :=
  rs.filterMap clean_record

/-- Re-reading an output record as an input record (running the pipeline
on its own output): the derived columns are recomputed by the second run,
so only the three input columns matter. -/
def CleanRecord.toRaw (c : CleanRecord) : RawRecord :=
  ⟨Val.num c.TOTALACRES, some c.STATCAUSE, Val.num ((c.FIREYEAR : ℤ) : ℚ)⟩

/-- The sampling step of `show_advanced_spatial_analysis` (lines 356-358):
`if len(filtered_df) > sample_size: filtered_df = filtered_df.sample(n=sample_size, random_state=42)`.
The library sampler (pandas `DataFrame.sample` with the literal seed 42) is
a deterministic function of its input, abstracted as the parameter `samp`. -/
def sample_step (samp : ℕ → List CleanRecord → List CleanRecord)
    (sample_size : ℕ) (rs : List CleanRecord) : List CleanRecord :=
  if sample_size < rs.length then samp sample_size rs else rs

/-! ### Helper lemmas -/

/-- Characterisation of the `none` case of `pd.cut`: exactly the values at
or below the lowest bin edge `0`. -/
lemma fire_size_category_eq_none (a : ℚ) : fire_size_category a = none ↔ a ≤ 0 := by
  unfold fire_size_category
  split_ifs <;> simp_all

lemma fire_size_category_small (a : ℚ) :
    fire_size_category a = some "Small (<10)" ↔ 0 < a ∧ a ≤ 10 := by
  unfold fire_size_category
  split_ifs with h1 h2 h3 h4 h5 <;> simp_all

lemma fire_size_category_medium (a : ℚ) :
    fire_size_category a = some "Medium (10-100)" ↔ 10 < a ∧ a ≤ 100 := by
  unfold fire_size_category
  split_ifs with h1 h2 h3 h4 h5 <;> simp_all
  all_goals (intro h; linarith)

lemma fire_size_category_large (a : ℚ) :
    fire_size_category a = some "Large (100-1000)" ↔ 100 < a ∧ a ≤ 1000 := by
  unfold fire_size_category
  split_ifs with h1 h2 h3 h4 h5 <;> simp_all <;> (intro h; linarith)

lemma fire_size_category_very_large (a : ℚ) :
    fire_size_category a = some "Very Large (1000-10000)" ↔ 1000 < a ∧ a ≤ 10000 := by
  unfold fire_size_category
  split_ifs with h1 h2 h3 h4 h5 <;> simp_all <;> (intro h; linarith)

lemma fire_size_category_mega (a : ℚ) :
    fire_size_category a = some "Mega (>10000)" ↔ 10000 < a := by
  unfold fire_size_category
  split_ifs with h1 h2 h3 h4 h5 <;> simp_all <;> linarith

/-- A row is dropped by `clean_and_prepare_data` exactly when its
`FIREYEAR` fails numeric coercion. -/
lemma clean_record_eq_none (r : RawRecord) :
    clean_record r = none ↔ to_numeric r.FIREYEAR = none := by
  unfold clean_record
  cases to_numeric r.FIREYEAR <;> simp

/-- Explicit form of a kept row. -/
lemma clean_record_eq_some (r : RawRecord) (y : ℚ) (h : to_numeric r.FIREYEAR = some y) :
    clean_record r =
      some ⟨(to_numeric r.TOTALACRES).getD 0, ratTrunc y, r.STATCAUSE.getD "Unknown",
        cause_category (r.STATCAUSE.getD "Unknown"),
        fire_size_category ((to_numeric r.TOTALACRES).getD 0)⟩ := by
  unfold clean_record
  rw [h]

/-- Truncation toward zero is the identity on integers. -/
lemma ratTrunc_intCast (n : ℤ) : ratTrunc ((n : ℤ) : ℚ) = n := by
  simp [ratTrunc]

/-- A `filterMap` that sends every member of a list to `some` of itself is
the identity on that list. -/
lemma filterMap_of_forall_mem_some {α : Type} (f : α → Option α) :
    ∀ l : List α, (∀ x ∈ l, f x = some x) → l.filterMap f = l := by
  intro l
  induction l with
  | nil => intro _; rfl
  | cons a t ih =>
    intro h
    have ha := h a (List.mem_cons_self a t)
    simp [List.filterMap_cons, ha, ih (fun x hx => h x (List.mem_cons_of_mem a hx))]

/-- Rows kept by one pass of the pipeline are fixed points of a second
pass. -/
lemma clean_record_toRaw (r : RawRecord) (c : CleanRecord) (h : clean_record r = some c) :
    clean_record c.toRaw = some c := by
  unfold clean_record at h
  cases hy : to_numeric r.FIREYEAR with
  | none => rw [hy] at h; simp at h
  | some y =>
    rw [hy] at h
    injection h with h2
    subst h2
    simp [clean_record, CleanRecord.toRaw, to_numeric, ratTrunc_intCast]

/-- The output has one row per input row with a coercible `FIREYEAR`. -/
lemma clean_length (rs : List RawRecord) :
    (clean_and_prepare_data rs).length =
      (rs.filter (fun r => (to_numeric r.FIREYEAR).isSome)).length := by
  unfold clean_and_prepare_data
  induction rs with
  | nil => rfl
  | cons a t ih =>
    rw [List.filterMap_cons, List.filter_cons]
    cases hy : to_numeric a.FIREYEAR with
    | none =>
      have hn : clean_record a = none := (clean_record_eq_none a).2 hy
      simp [hn, hy, ih]
    | some y =>
      rw [clean_record_eq_some a y hy]
      simp [hy, ih]

/-! ### Claims -/

/-- C1: the spec claims the `total_acres` bins `0, 10, 100, 1000, 10000, ∞`
are inclusive-lower/exclusive-upper, with `0 ↦ Small`, `10 ↦ Medium`,
`10000 ↦ Mega`. The code uses `pd.cut` with its default `right=True`, so
the bins are in fact exclusive-lower/inclusive-upper: this concrete
counterexample shows `0` falls in no bin, `10` is Small and `10000` is
Very Large. -/
theorem C1_counterexample :
    ¬(fire_size_category 0 = some "Small (<10)" ∧
      fire_size_category 10 = some "Medium (10-100)" ∧
      fire_size_category 10000 = some "Mega (>10000)") := by decide

/-- C1 (amended): `fire_size_category` partitions positive `total_acres`
values into the five bins `(0,10], (10,100], (100,1000], (1000,10000],
(10000,∞)`, i.e. exclusive-lower/inclusive-upper with the last bin
unbounded above; a value of exactly `0` falls in no bin (`none`), `10` is
Small, `9999` and `10000` are Very Large. -/
theorem C1_fire_size_bins (a : ℚ) :
    (fire_size_category a = none ↔ a ≤ 0) ∧
    (fire_size_category a = some "Small (<10)" ↔ 0 < a ∧ a ≤ 10) ∧
    (fire_size_category a = some "Medium (10-100)" ↔ 10 < a ∧ a ≤ 100) ∧
    (fire_size_category a = some "Large (100-1000)" ↔ 100 < a ∧ a ≤ 1000) ∧
    (fire_size_category a = some "Very Large (1000-10000)" ↔ 1000 < a ∧ a ≤ 10000) ∧
    (fire_size_category a = some "Mega (>10000)" ↔ 10000 < a) ∧
    fire_size_category 0 = none ∧
    fire_size_category 10 = some "Small (<10)" ∧
    fire_size_category 9999 = some "Very Large (1000-10000)" ∧
    fire_size_category 10000 = some "Very Large (1000-10000)" :=
  ⟨fire_size_category_eq_none a, fire_size_category_small a, fire_size_category_medium a,
    fire_size_category_large a, fire_size_category_very_large a, fire_size_category_mega a,
    by decide, by decide, by decide, by decide⟩

/-- C2: the spec claims every output record carries a non-null
`fire_size_category` (since every `total_acres` is coerced to a number).
Counterexample: a record whose `total_acres` coerces to `0` is kept in the
output but gets a null `FIRE_SIZE_CATEGORY`, because `pd.cut` assigns
`NaN` below the lowest bin edge. -/
theorem C2_counterexample :
    (clean_and_prepare_data [⟨Val.str "bad", some "Lightning", Val.str "2020"⟩]).map
        CleanRecord.FIRE_SIZE_CATEGORY = [none] := by decide

/-- C2 (amended): every output record has a (non-null) `CAUSE_CATEGORY`
derived from its `STATCAUSE`, and has a non-null `FIRE_SIZE_CATEGORY` iff
its coerced `TOTALACRES` is strictly positive. -/
theorem C2_derived_columns (r : RawRecord) (c : CleanRecord) (h : clean_record r = some c) :
    c.CAUSE_CATEGORY = cause_category c.STATCAUSE ∧
    (c.FIRE_SIZE_CATEGORY ≠ none ↔ 0 < c.TOTALACRES) := by
  unfold clean_record at h
  cases hy : to_numeric r.FIREYEAR with
  | none => rw [hy] at h; simp at h
  | some y =>
    rw [hy] at h
    injection h with h2
    subst h2
    refine ⟨rfl, ?_⟩
    rw [Ne, fire_size_category_eq_none]
    exact not_le

/-- Witness for C2: a concrete kept record, with both derived columns
evaluated. -/
theorem C2_witness :
    clean_record ⟨Val.num 5, some "Campfire", Val.num 1999⟩ =
      some ⟨5, 1999, "Campfire", "Human", some "Small (<10)"⟩ ∧
    (("Human" : String) = cause_category "Campfire" ∧
      ((some "Small (<10)" : Option String) ≠ none ↔ (0 : ℚ) < 5)) :=
  ⟨by decide, C2_derived_columns ⟨Val.num 5, some "Campfire", Val.num 1999⟩
    ⟨5, 1999, "Campfire", "Human", some "Small (<10)"⟩ (by decide)⟩

/-- C3: the spec claims the coerced `total_acres` is always nonnegative.
Counterexample: the numeral string `"-5"` coerces to `-5 < 0` and is kept
unchanged; the code never clamps negative values. -/
theorem C3_counterexample :
    clean_record ⟨Val.str "-5", some "Lightning", Val.str "2020"⟩ =
      some ⟨Rat.divInt (-5) 1, 2020, "Lightning", "Natural", none⟩ ∧
    Rat.divInt (-5) 1 < 0 :=
  ⟨by decide, by decide⟩

/-- C3 (amended): after preparation `TOTALACRES` is a number: exactly `0`
when the input fails numeric coercion, and otherwise exactly the coerced
input value (which is nonnegative whenever the input value is). -/
theorem C3_total_acres (r : RawRecord) (c : CleanRecord) (h : clean_record r = some c) :
    (to_numeric r.TOTALACRES = none → c.TOTALACRES = 0) ∧
    ∀ q : ℚ, to_numeric r.TOTALACRES = some q → c.TOTALACRES = q := by
  unfold clean_record at h
  cases hy : to_numeric r.FIREYEAR with
  | none => rw [hy] at h; simp at h
  | some y =>
    rw [hy] at h
    injection h with h2
    subst h2
    constructor
    · intro ha
      show (to_numeric r.TOTALACRES).getD 0 = 0
      rw [ha]
      rfl
    · intro q hq
      show (to_numeric r.TOTALACRES).getD 0 = q
      rw [hq]
      rfl

/-- Witness for C3: a record whose `TOTALACRES` fails coercion and comes
out as `0`. -/
theorem C3_witness :
    clean_record ⟨Val.str "bad", some "Arson", Val.num 2001⟩ =
      some ⟨0, 2001, "Arson", "Human", none⟩ ∧
    (0 : ℚ) = 0 :=
  ⟨by decide, (C3_total_acres ⟨Val.str "bad", some "Arson", Val.num 2001⟩
    ⟨0, 2001, "Arson", "Human", none⟩ (by decide)).1 (by decide)⟩

/-- C4: the spec claims the two-record example produces one record with
`cause = "Unknown"` and `cause_category = "Unknown"`. Counterexample: the
surviving record's cause is its input value `"Lightning"` (the `fillna`
only replaces missing causes), not `"Unknown"`. -/
theorem C4_counterexample :
    (clean_and_prepare_data
        [⟨Val.str "12.5", some "Lightning", Val.str "2020"⟩,
         ⟨Val.str "bad", none, Val.str "x"⟩]).map CleanRecord.STATCAUSE = ["Lightning"] ∧
    ("Lightning" : String) ≠ "Unknown" :=
  ⟨by decide, by decide⟩

/-- C4 (amended): on the input
`[{total_acres: "12.5", cause: "Lightning", year: "2020"}, {total_acres: "bad", cause: None, year: "x"}]`
the pipeline outputs exactly one record,
`{total_acres: 12.5, cause: "Lightning", cause_category: "Natural", fire_size_category: "Medium (10-100)", year: 2020}`;
the second input record is dropped for its unparseable year. -/
theorem C4_end_to_end :
    clean_and_prepare_data
        [⟨Val.str "12.5", some "Lightning", Val.str "2020"⟩,
         ⟨Val.str "bad", none, Val.str "x"⟩] =
      [⟨Rat.divInt 25 2, 2020, "Lightning", "Natural", some "Medium (10-100)"⟩] := by decide

/-- C5: the spec claims an absent or empty `cause` is defaulted to
`"Unknown"`. Counterexample: `fillna` only replaces missing values, so an
empty-string cause stays `""` and its category is `"Other"`, not
`"Unknown"`. -/
theorem C5_counterexample :
    clean_record ⟨Val.num 5, some "", Val.num 2020⟩ =
      some ⟨5, 2020, "", "Other", some "Small (<10)"⟩ ∧
    ("" : String) ≠ "Unknown" :=
  ⟨by decide, by decide⟩

/-- C5 (amended): a missing `STATCAUSE` is defaulted to `"Unknown"` (whose
category is `"Unknown"`); any present string cause, the empty string
included, is kept unchanged. -/
theorem C5_cause_default (r : RawRecord) (c : CleanRecord) (h : clean_record r = some c) :
    (r.STATCAUSE = none → c.STATCAUSE = "Unknown" ∧ c.CAUSE_CATEGORY = "Unknown") ∧
    ∀ s : String, r.STATCAUSE = some s → c.STATCAUSE = s := by
  unfold clean_record at h
  cases hy : to_numeric r.FIREYEAR with
  | none => rw [hy] at h; simp at h
  | some y =>
    rw [hy] at h
    injection h with h2
    subst h2
    constructor
    · intro hs
      constructor
      · show r.STATCAUSE.getD "Unknown" = "Unknown"
        rw [hs]
        rfl
      · show cause_category (r.STATCAUSE.getD "Unknown") = "Unknown"
        rw [hs]
        decide
    · intro s hs
      show r.STATCAUSE.getD "Unknown" = s
      rw [hs]
      rfl

/-- Witness for C5: a record with a missing cause comes out as
`"Unknown"`/`"Unknown"`. -/
theorem C5_witness :
    clean_record ⟨Val.num 5, none, Val.num 2020⟩ =
      some ⟨5, 2020, "Unknown", "Unknown", some "Small (<10)"⟩ ∧
    (("Unknown" : String) = "Unknown" ∧ ("Unknown" : String) = "Unknown") :=
  ⟨by decide, (C5_cause_default ⟨Val.num 5, none, Val.num 2020⟩
    ⟨5, 2020, "Unknown", "Unknown", some "Small (<10)"⟩ (by decide)).1 rfl⟩

/-- C6: `cause_category` is a fixed case-sensitive exact-match lookup:
`"Lightning" ↦ "Natural"`, the nine human causes `↦ "Human"`,
`"Miscellaneous" ↦ "Other"`, `"Unknown" ↦ "Unknown"`, and every string not
in the table (such as `"Meteor"`) `↦ "Other"`. -/
theorem C6_cause_category_lookup (s : String) (h : cause_mapping s = none) :
    cause_category "Lightning" = "Natural" ∧
    cause_category "Equipment Use" = "Human" ∧
    cause_category "Smoking" = "Human" ∧
    cause_category "Campfire" = "Human" ∧
    cause_category "Debris Burning" = "Human" ∧
    cause_category "Railroad" = "Human" ∧
    cause_category "Arson" = "Human" ∧
    cause_category "Children" = "Human" ∧
    cause_category "Fireworks" = "Human" ∧
    cause_category "Powerline" = "Human" ∧
    cause_category "Miscellaneous" = "Other" ∧
    cause_category "Unknown" = "Unknown" ∧
    cause_category s = "Other" := by
  refine ⟨by decide, by decide, by decide, by decide, by decide, by decide, by decide,
    by decide, by decide, by decide, by decide, by decide, ?_⟩
  unfold cause_category
  rw [h]
  rfl

/-- Witness for C6: `"Meteor"` is not in the table and maps to
`"Other"`. -/
theorem C6_witness :
    cause_mapping "Meteor" = none ∧ cause_category "Meteor" = "Other" :=
  ⟨by decide,
    (C6_cause_category_lookup "Meteor" (by decide)).2.2.2.2.2.2.2.2.2.2.2.2⟩

/-- C7: every output record's year is an integer (the output `FIREYEAR`
field has type `ℤ`), the output has exactly one record per input record
whose `FIREYEAR` coerces, and a record is dropped (entirely absent, not
nulled) iff its `FIREYEAR` fails numeric coercion. -/
theorem C7_year_exclusion (rs : List RawRecord) :
    (clean_and_prepare_data rs).length =
      (rs.filter (fun r => (to_numeric r.FIREYEAR).isSome)).length ∧
    ∀ r : RawRecord, clean_record r = none ↔ to_numeric r.FIREYEAR = none :=
  ⟨clean_length rs, fun r => clean_record_eq_none r⟩

/-- C8: the pipeline is idempotent: re-running `clean_and_prepare_data` on
its own output (read back as raw records; the derived columns are
recomputed) drops no record and reproduces the output exactly. -/
theorem C8_idempotent (rs : List RawRecord) :
    clean_and_prepare_data ((clean_and_prepare_data rs).map CleanRecord.toRaw) =
      clean_and_prepare_data rs := by
  unfold clean_and_prepare_data
  rw [List.filterMap_map]
  refine filterMap_of_forall_mem_some _ _ ?_
  intro c hc
  obtain ⟨r, hrmem, hr⟩ := List.mem_filterMap.1 hc
  exact clean_record_toRaw r c hr

/-- C9: the map-rendering sampling step samples exactly when the filtered
set is larger than the configured sample size; it then returns the
(deterministic, fixed-seed) library sample of exactly `sample_size`
records, and a set of at most `sample_size` records passes through
unchanged. Determinism is the last conjunct: equal inputs give equal
outputs. The pandas sampler is abstracted as `samp`; the hypothesis is
its documented behaviour (a sample of exactly `n` rows when `n` does not
exceed the population). -/
theorem C9_sampling (samp : ℕ → List CleanRecord → List CleanRecord)
    (hsamp : ∀ (n : ℕ) (rs : List CleanRecord), n ≤ rs.length → (samp n rs).length = n)
    (n : ℕ) (rs : List CleanRecord) :
    (rs.length ≤ n → sample_step samp n rs = rs) ∧
    (n < rs.length →
      sample_step samp n rs = samp n rs ∧ (sample_step samp n rs).length = n) ∧
    ∀ rs2 : List CleanRecord, rs = rs2 → sample_step samp n rs = sample_step samp n rs2 := by
  refine ⟨?_, ?_, ?_⟩
  · intro h
    unfold sample_step
    rw [if_neg (by omega)]
  · intro h
    unfold sample_step
    rw [if_pos h]
    exact ⟨rfl, hsamp n rs (le_of_lt h)⟩
  · intro rs2 h
    rw [h]

/-- Witness for C9: with `List.take` standing in for the library sampler,
a two-record set sampled down to one record. -/
theorem C9_witness :
    sample_step (fun n rs => rs.take n) 1
        [⟨Rat.divInt 1 1, 2000, "Arson", "Human", some "Small (<10)"⟩,
         ⟨Rat.divInt 20 1, 2001, "Smoking", "Human", some "Medium (10-100)"⟩] =
      ([⟨Rat.divInt 1 1, 2000, "Arson", "Human", some "Small (<10)"⟩,
        ⟨Rat.divInt 20 1, 2001, "Smoking", "Human", some "Medium (10-100)"⟩] :
          List CleanRecord).take 1 ∧
    (sample_step (fun n rs => rs.take n) 1
        [⟨Rat.divInt 1 1, 2000, "Arson", "Human", some "Small (<10)"⟩,
         ⟨Rat.divInt 20 1, 2001, "Smoking", "Human", some "Medium (10-100)"⟩]).length = 1 :=
  (C9_sampling (fun n rs => rs.take n)
    (fun n rs h => (List.length_take n rs).trans (Nat.min_eq_left h)) 1
    [⟨Rat.divInt 1 1, 2000, "Arson", "Human", some "Small (<10)"⟩,
     ⟨Rat.divInt 20 1, 2001, "Smoking", "Human", some "Medium (10-100)"⟩]).2.1 (by decide)

/-- C10: a record whose year coerces to a non-integral number (such as the
string `"2020.7"`) is not dropped; its year is truncated toward zero by
`astype(int)`, so only years failing numeric coercion altogether cause
exclusion. -/
theorem C10_year_truncated (r : RawRecord) (q : ℚ) (h : to_numeric r.FIREYEAR = some q) :
    (clean_record r).isSome ∧
    ∀ c : CleanRecord, clean_record r = some c → c.FIREYEAR = ratTrunc q := by
  rw [clean_record_eq_some r q h]
  constructor
  · rfl
  · intro c hc
    injection hc with h2
    subst h2
    rfl

/-- Witness for C10: the string year `"2020.7"` coerces to `20207/10`, the
record is kept, and its year truncates to `2020`. -/
theorem C10_witness :
    (clean_record ⟨Val.num 5, some "Lightning", Val.str "2020.7"⟩).isSome ∧
    (clean_record ⟨Val.num 5, some "Lightning", Val.str "2020.7"⟩ =
        some ⟨5, 2020, "Lightning", "Natural", some "Small (<10)"⟩ ∧
      ratTrunc (Rat.divInt 20207 10) = 2020) :=
  ⟨(C10_year_truncated ⟨Val.num 5, some "Lightning", Val.str "2020.7"⟩
      (Rat.divInt 20207 10) (by decide)).1,
    by decide, by decide⟩

